import Mathlib

/-!
Verification development for the SciQLop data-provider abstraction layer
(`SciQLop/backend/pipelines_model/data_provider.py` and
`SciQLop/backend/pipelines_model/easy_provider.py`).

The Python code is shallowly embedded: numpy arrays become a dtype tag plus a
shape and a list of exact rational values (floating point is modelled by exact
rationals), Python dictionaries become association lists, the process-wide
provider registry becomes explicit state passing, in-place dictionary mutation
is modelled by a heap of dictionaries addressed by natural-number references,
and Python exceptions become the `Except` monad.
-/

/-- Python exceptions that the embedded code can raise. -/
inductive PyErr where
  | valueError (msg : String)
  | keyError (key : String)
  | userError (msg : String)
deriving DecidableEq, Repr

/-- The numpy dtypes the code inspects: `datetime64[ns]`, `float64`, and a
catch-all for every other dtype. -/
inductive Dtype where
  | datetime64ns
  | float64
  | other (nm : String)
deriving DecidableEq, Repr

/-- A numpy `ndarray`: dtype tag, shape, and flat element list.  Element values
are exact rationals; for `datetime64[ns]` arrays they are nanosecond counts. -/
structure NDArray where
  dtype : Dtype
  shape : List Nat
  vals : List Rat
deriving DecidableEq, Repr

/-- An axis of a `SpeasyVariable`: `VariableTimeAxis(...)` or
`VariableAxis(...)` wrapping an array. -/
inductive VarAxis where
  | timeAxis (values : NDArray)
  | axis (values : NDArray)
deriving DecidableEq, Repr

/-- The canonical `SpeasyVariable`: ordered axes, a data block
(`DataContainer` wraps a plain array, modelled as the array itself) and column
names.  The Python constructor defaults `columns` to an empty list; every
embedded call site passes it explicitly. -/
structure SpeasyVariable where
  axes : List VarAxis
  values : NDArray
  columns : List String
deriving DecidableEq, Repr

/-- A Python runtime value as far as the adapter code inspects it: an exact
`SpeasyVariable`, a tuple, an `ndarray`, a number, a string, or `None`. -/
inductive PyVal where
  | variableObj (v : SpeasyVariable)
  | tuple (elems : List PyVal)
  | array (a : NDArray)
  | num (q : Rat)
  | str (s : String)
  | pyNone

/-- Name of the Python type of a value, used in error messages. -/
def pyTypeName : PyVal → String
  | .variableObj _ => "SpeasyVariable"
  | .tuple _ => "tuple"
  | .array _ => "ndarray"
  | .num _ => "float"
  | .str _ => "str"
  | .pyNone => "NoneType"

/-- The `ParameterType` enum of `SciQLop.backend.enums`. -/
inductive ParameterType where
  | SCALAR
  | VECTOR
  | MULTICOMPONENT
  | SPECTROGRAM
deriving DecidableEq, Repr

/-- Python `Enum.name` for `ParameterType`. -/
def ParameterType.name : ParameterType → String
  | .SCALAR => "SCALAR"
  | .VECTOR => "VECTOR"
  | .MULTICOMPONENT => "MULTICOMPONENT"
  | .SPECTROGRAM => "SPECTROGRAM"

/-- The `DataOrder` enum of `SciQLop.backend.enums`. -/
inductive DataOrder where
  | X_FIRST
  | Y_FIRST
deriving DecidableEq, Repr

/-- A metadata dictionary: string keys to string values, in insertion order. -/
abbrev Dict := List (String × String)

/-- A heap of dictionaries, modelling Python reference semantics for the
mutable `metadata` dict arguments; a reference is an index into the heap. -/
abbrev Heap := List Dict

/-- Read the dictionary a reference points to (references are always valid in
the embedded code; an invalid one reads as the empty dictionary). -/
def heapGet (h : Heap) (r : Nat) : Dict := h.getD r []

/-- Overwrite the dictionary a reference points to (in-place mutation). -/
def heapSet (h : Heap) (r : Nat) (d : Dict) : Heap := h.set r d

/-- Python dictionary assignment `d[k] = v`: overwrite in place if the key is
present (keeping its position), otherwise append the new entry. -/
def dictAssign {α : Type} (d : List (String × α)) (k : String) (v : α) :
    List (String × α) :=
  if d.any (fun p => p.1 == k) then
    d.map (fun p => if p.1 == k then (k, v) else p)
  else d ++ [(k, v)]

/-- Python `d.pop(k)` with no default: remove the entry if present, raise
`KeyError` otherwise.  Returns the remaining dictionary. -/
def dictPop {α : Type} (d : List (String × α)) (k : String) :
    Except PyErr (List (String × α)) :=
  if d.any (fun p => p.1 == k) then .ok (d.filter (fun p => p.1 != k))
  else .error (.keyError k)

/-- The process-wide `providers` dict of `data_provider.py`, mapping a provider
name to the identity (modelled as a `Nat`) of the registered provider object. -/
abbrev Registry := List (String × Nat)

/-- `DataProvider.__init__`: `providers[name] = self`.  The provider object is
identified by `objId`. -/
def DataProvider.register (r : Registry) (name : String) (objId : Nat) :
    Registry :=
  dictAssign r name objId

/-- `DataProvider.__del__`: `providers.pop(self._name)`.  The module-level
`providers` dict is never `None` while the program runs, so the
`if providers is not None` guard is always taken.  `pop` is keyed only by the
dying provider's name: it ignores which object is currently registered, and it
raises `KeyError` when the name is absent. -/
def DataProvider.del (r : Registry) (selfName : String) : Except PyErr Registry :=
  dictPop r selfName

/-- `ensure_dt64` of `easy_provider.py`: identity on `datetime64[ns]` arrays,
multiply-by-1e9 and reinterpret for `float64` arrays, `ValueError` otherwise
(including non-array inputs). -/
def ensure_dt64 (x_data : PyVal) : Except PyErr NDArray :=
  match x_data with
  | .array a =>
    if a.dtype = Dtype.datetime64ns then .ok a
    else if a.dtype = Dtype.float64 then
      .ok ⟨Dtype.datetime64ns, a.shape, a.vals.map (fun v => v * 1e9)⟩
    else .error (.valueError ("cant handle x axis type " ++ pyTypeName x_data))
  | _ => .error (.valueError ("cant handle x axis type " ++ pyTypeName x_data))

/-- `np.ascontiguousarray`: on an array it only changes memory layout, which is
unobservable here, so it is the identity; a bare number becomes a 0-d array;
anything else the adapters never pass (modelled as a `ValueError`). -/
def ascontiguousarray (v : PyVal) : Except PyErr NDArray :=
  match v with
  | .array a => .ok a
  | .num q => .ok ⟨Dtype.float64, [], [q]⟩
  | w => .error (.valueError ("cannot build an array from " ++ pyTypeName w))

/-- Fetch times (`start`, `stop`) are seconds since the epoch, modelled as
exact rationals. -/
abbrev Time := Rat

/-- A user data callback: called with `(start, stop)`, it either returns a
value or raises. -/
abbrev Callback := Time → Time → Except PyErr PyVal

/-- `EasyScalar.get_data`: pass a `SpeasyVariable` through, wrap a 2-tuple
`(x, y)` into a variable with the configured single column, return `None` for
any other shape.  Unpacking `x, y = res` raises `ValueError` when the tuple has
the wrong arity; `ensure_dt64` may raise as well.  `columns` stands for
`self._columns` and `user_get_data` for `self._user_get_data`. -/
def EasyScalar.get_data (columns : List String) (user_get_data : Callback)
    (start stop : Time) : Except PyErr (Option SpeasyVariable) := do
  let res ← user_get_data start stop
  match res with
  | .variableObj v => pure (some v)
  | .tuple elems =>
    match elems with
    | [x, y] => do
      let xa ← ensure_dt64 x
      let ya ← ascontiguousarray y
      pure (some ⟨[.timeAxis xa], ya, columns⟩)
    | _ => throw (.valueError "tuple unpack")
  | _ => pure none

/-- `EasyVector.get_data`: textually the same body as `EasyScalar.get_data`
(the source duplicates it), with `self._columns` holding the configured
component-name list. -/
def EasyVector.get_data (columns : List String) (user_get_data : Callback)
    (start stop : Time) : Except PyErr (Option SpeasyVariable) := do
  let res ← user_get_data start stop
  match res with
  | .variableObj v => pure (some v)
  | .tuple elems =>
    match elems with
    | [x, y] => do
      let xa ← ensure_dt64 x
      let ya ← ascontiguousarray y
      pure (some ⟨[.timeAxis xa], ya, columns⟩)
    | _ => throw (.valueError "tuple unpack")
  | _ => pure none

/-- `EasyMultiComponent` defines no `get_data` of its own: it inherits
`EasyVector.get_data` unchanged. -/
def EasyMultiComponent.get_data : List String → Callback → Time → Time →
    Except PyErr (Option SpeasyVariable) :=
  EasyVector.get_data

/-- `EasySpectrogram.get_data`: pass a `SpeasyVariable` through, wrap a 3-tuple
`(x, y, z)` into a variable with a normalized time axis, the secondary axis `y`
as-is (no time normalization) and data block `z`; the `SpeasyVariable` is built
without a `columns` argument, whose default is the empty list. -/
def EasySpectrogram.get_data (user_get_data : Callback) (start stop : Time) :
    Except PyErr (Option SpeasyVariable) := do
  let res ← user_get_data start stop
  match res with
  | .variableObj v => pure (some v)
  | .tuple elems =>
    match elems with
    | [x, y, z] => do
      let xa ← ensure_dt64 x
      let ya ← ascontiguousarray y
      let za ← ascontiguousarray z
      pure (some ⟨[.timeAxis xa, .axis ya], za, []⟩)
    | _ => throw (.valueError "tuple unpack")
  | _ => pure none

/-- A `Product` node of the external product model (`SciQLop.backend.Product`),
as the shown code constructs and reads it: a display name, a uid, an owning
provider name (optional in the external constructor), a metadata dictionary,
the parameter flags and an optional icon, plus an ordered list of children. -/
inductive Product where
  | mk (name : String) (uid : String) (provider : Option String)
      (metadata : Dict) (is_parameter : Bool)
      (parameter_type : Option ParameterType) (icon : Option String)
      (children : List Product)

/-- Display name of a node. -/
def Product.name : Product → String
  | ⟨n, _, _, _, _, _, _, _⟩ => n

/-- Uid of a node. -/
def Product.uid : Product → String
  | ⟨_, u, _, _, _, _, _, _⟩ => u

/-- Owning provider name of a node. -/
def Product.provider : Product → Option String
  | ⟨_, _, pr, _, _, _, _, _⟩ => pr

/-- Metadata dictionary of a node. -/
def Product.metadata : Product → Dict
  | ⟨_, _, _, m, _, _, _, _⟩ => m

/-- Parameter flag of a node. -/
def Product.is_parameter : Product → Bool
  | ⟨_, _, _, _, ip, _, _, _⟩ => ip

/-- Parameter type of a node. -/
def Product.parameter_type : Product → Option ParameterType
  | ⟨_, _, _, _, _, pt, _, _⟩ => pt

/-- Icon of a node. -/
def Product.icon : Product → Option String
  | ⟨_, _, _, _, _, _, ic, _⟩ => ic

/-- Children of a node. -/
def Product.children : Product → List Product
  | ⟨_, _, _, _, _, _, _, cs⟩ => cs

mutual

/-- Modelled from the spec: `Product.merge` of the external product model
(`SciQLop.backend.Product`), whose source is not part of the shown files.  Per
the spec, merging a node into a parent adopts it as a new child when no child
with that name exists; when one exists, the two nodes are merged recursively
(children unioned by name, conflicting leaf definitions overwritten by the more
recent merge). -/
def Product.merge (parent : Product) (node : Product) : Product :=
  match parent with
  | ⟨n, u, pr, m, ip, pt, ic, cs⟩ =>
    if cs.any (fun c => c.name == node.name) then
      ⟨n, u, pr, m, ip, pt, ic, mergeReplace cs node⟩
    else
      ⟨n, u, pr, m, ip, pt, ic, cs ++ [node]⟩
termination_by (sizeOf node, 3, 0)

/-- Modelled from the spec: replace the child whose name matches `node` by the
result of merging `node` into it. -/
def mergeReplace (cs : List Product) (node : Product) : List Product :=
  match cs with
  | [] => []
  | c :: rest =>
    if c.name == node.name then mergePair c node :: rest
    else c :: mergeReplace rest node
termination_by (sizeOf node, 2, sizeOf cs)

/-- Modelled from the spec: merge `node` into the existing same-named node
`ex`: a conflicting leaf definition is overwritten by the more recent merge,
otherwise the children of `node` are merged into `ex` one by one. -/
def mergePair (ex : Product) (node : Product) : Product :=
  match node with
  | ⟨_, _, _, _, true, _, _, _⟩ => node
  | ⟨_, _, _, _, false, _, _, ncs⟩ => mergeAll ex ncs
termination_by (sizeOf node, 1, 0)

/-- Modelled from the spec: merge a list of nodes into `ex` from left to
right. -/
def mergeAll (ex : Product) (ncs : List Product) : Product :=
  match ncs with
  | [] => ex
  | c :: rest => mergeAll (Product.merge ex c) rest
termination_by (sizeOf ncs, 4, 0)

end

mutual

/-- Every node of a tree: the node itself followed by all descendants. -/
def Product.allNodes : Product → List Product
  | ⟨n, u, pr, m, ip, pt, ic, cs⟩ =>
    ⟨n, u, pr, m, ip, pt, ic, cs⟩ :: allNodesList cs

/-- Every node of a forest. -/
def allNodesList : List Product → List Product
  | [] => []
  | c :: cs => Product.allNodes c ++ allNodesList cs

end

/-- Python `str.split` with separator `"/"`, on the character list of the
string: splits at every separator occurrence and keeps empty pieces, so the
result is never the empty list. -/
def pySplitSlash : List Char → List (List Char)
  | [] => [[]]
  | c :: rest =>
    if c = '/' then [] :: pySplitSlash rest
    else
      match pySplitSlash rest with
      | [] => [[c]]
      | s :: ss => (c :: s) :: ss

/-- The loop body of `build_product_hierarchy`: the Python loop creates a fresh
intermediate node per middle segment, merges it into the current node and
descends into it, then merges the leaf into the innermost node.  Because each
freshly created node is adopted as a child and then mutated in place by the
later iterations, the net effect is merging the fully built sub-chain, which is
what this recursion does. -/
def attachChain (provName : String) (pt : ParameterType) (metadata : Dict)
    (node : Product) (mids : List String) (leafName : String) : Product :=
  match mids with
  | [] =>
    node.merge ⟨leafName, leafName, some provName, metadata, true, some pt,
      none, []⟩
  | e :: es =>
    node.merge (attachChain provName pt metadata
      ⟨e, provName, some provName, [], false, none, none, []⟩ es leafName)

/-- The leading-slash strip at the top of `build_product_hierarchy`: the code
checks `path.startswith` of the separator and drops the first character when it
matches. -/
def stripLeadingSlash : List Char → List Char
  | '/' :: rest => rest
  | l => l

/-- `build_product_hierarchy` of `easy_provider.py`.  `provName` stands for
`provider.name`.  A leading `/` is stripped, the rest is split on `/`; the
first segment becomes the root (uid and provider set to the provider name),
each middle segment an intermediate node (same uid and provider), and the last
segment the leaf, which carries the supplied metadata and parameter type and
has its own text as uid.  `split` never returns an empty list, so the empty
case below is unreachable. -/
def build_product_hierarchy (path : String) (provName : String)
    (pt : ParameterType) (metadata : Dict) : Product :=
  let elements := (pySplitSlash (stripLeadingSlash path.data)).map String.mk
  match elements with
  | [] => ⟨"", "", none, [], false, none, none, []⟩
  | e0 :: rest =>
    let root : Product := ⟨e0, provName, some provName, [], false, none, none, []⟩
    attachChain provName pt metadata root rest.dropLast
      ((e0 :: rest).getLast (List.cons_ne_nil e0 rest))

/-- The observable state produced by an adapter constructor: the dictionary
heap after the call, the provider registry, the `Product` handed to
`products.add_product`, the parent path it is registered under, the adapter's
`_columns` attribute and its data order. -/
structure InitResult where
  heap : Heap
  registry : Registry
  product : Product
  productPath : String
  columns : List String
  dataOrder : DataOrder

/-- `EasyProvider.__init__`.  `provName` stands for the derived unique name
`make_simple_incr_name(callback.__name__)` (whose source is outside the shown
files) and `objId` for the identity of the adapter object; `metaRef` is the
reference to the `metadata` dict argument, which is updated in place with a
description entry; the `Product` built here is handed to
`products.add_product` (external product model) and recorded in the result.
`EasyProvider` itself sets no `_columns`. -/
def EasyProvider.init (h : Heap) (r : Registry) (path : String)
    (cbName : String) (pt : ParameterType) (metaRef : Nat) (provName : String)
    (objId : Nat) (dord : DataOrder) : InitResult :=
  let r1 := DataProvider.register r provName objId
  let product_name := String.mk ((pySplitSlash path.data).getLastD [])
  let product_path := String.mk
    (path.data.take (path.data.length - product_name.data.length))
  let desc := "Virtual " ++ pt.name ++ " product built from Python function: "
    ++ cbName
  let h1 := heapSet h metaRef (dictAssign (heapGet h metaRef) "description" desc)
  let product : Product := ⟨product_name, product_name, some provName,
    heapGet h1 metaRef, true, some pt, some "Python-logo-notext", []⟩
  ⟨h1, r1, product, product_path, [], dord⟩

/-- `EasyScalar.__init__`: builds the fresh dict
`{**metadata, "components": component_name}` (allocated at a new reference, so
the caller's dict is not written), runs `EasyProvider.__init__` on it with
`ParameterType.SCALAR`, then sets `self._columns = [component_name]`. -/
def EasyScalar.init (h : Heap) (r : Registry) (path : String) (cbName : String)
    (component_name : String) (metaRef : Nat) (provName : String) (objId : Nat)
    (dord : DataOrder) : InitResult :=
  let copy := dictAssign (heapGet h metaRef) "components" component_name
  let h1 := h ++ [copy]
  let copyRef := h.length
  let res := EasyProvider.init h1 r path cbName ParameterType.SCALAR copyRef
    provName objId dord
  ⟨res.heap, res.registry, res.product, res.productPath, [component_name],
    res.dataOrder⟩

/-- `EasyVector.__init__`: like `EasyScalar.__init__` with the component names
joined by `;` in the copied dict, `ParameterType.VECTOR`, and
`self._columns = components_names`. -/
def EasyVector.init (h : Heap) (r : Registry) (path : String) (cbName : String)
    (components_names : List String) (metaRef : Nat) (provName : String)
    (objId : Nat) (dord : DataOrder) : InitResult :=
  let copy := dictAssign (heapGet h metaRef) "components"
    (String.intercalate ";" components_names)
  let h1 := h ++ [copy]
  let copyRef := h.length
  let res := EasyProvider.init h1 r path cbName ParameterType.VECTOR copyRef
    provName objId dord
  ⟨res.heap, res.registry, res.product, res.productPath, components_names,
    res.dataOrder⟩

/-- `EasyMultiComponent.__init__`: calls `EasyProvider.__init__` directly (the
`super(EasyVector, self)` call skips `EasyVector.__init__`) with the same
arguments as `EasyVector.__init__` except `ParameterType.MULTICOMPONENT`, then
sets `self._columns = components_names`. -/
def EasyMultiComponent.init (h : Heap) (r : Registry) (path : String)
    (cbName : String) (components_names : List String) (metaRef : Nat)
    (provName : String) (objId : Nat) (dord : DataOrder) : InitResult :=
  let copy := dictAssign (heapGet h metaRef) "components"
    (String.intercalate ";" components_names)
  let h1 := h ++ [copy]
  let copyRef := h.length
  let res := EasyProvider.init h1 r path cbName ParameterType.MULTICOMPONENT
    copyRef provName objId dord
  ⟨res.heap, res.registry, res.product, res.productPath, components_names,
    res.dataOrder⟩

/-- `EasySpectrogram.__init__`: copies the caller's dict (`{**metadata}`) into
a fresh reference and runs `EasyProvider.__init__` on it with
`ParameterType.SPECTROGRAM`; no `_columns` is set. -/
def EasySpectrogram.init (h : Heap) (r : Registry) (path : String)
    (cbName : String) (metaRef : Nat) (provName : String) (objId : Nat)
    (dord : DataOrder) : InitResult :=
  let copy := heapGet h metaRef
  let h1 := h ++ [copy]
  let copyRef := h.length
  let res := EasyProvider.init h1 r path cbName ParameterType.SPECTROGRAM
    copyRef provName objId dord
  ⟨res.heap, res.registry, res.product, res.productPath, [], res.dataOrder⟩

/-- Discriminator for `type(res) is SpeasyVariable`. -/
def PyVal.isVariableObj : PyVal → Bool
  | .variableObj _ => true
  | _ => false

/-- Discriminator for `type(res) is tuple`. -/
def PyVal.isTuple : PyVal → Bool
  | .tuple _ => true
  | _ => false

/-- Erase from a product the parameter-type tag and the `description` metadata
entry that is derived from it (both are functions of the `parameter_type`
argument of `EasyProvider.__init__`). -/
def Product.eraseTagInfo (p : Product) : Product :=
  ⟨p.name, p.uid, p.provider, p.metadata.filter (fun q => q.1 != "description"),
    p.is_parameter, none, p.icon, p.children⟩

/-- Rebuilding a string from its character list is the identity. -/
theorem mk_data_eq (s : String) : String.mk s.data = s := rfl

/-- Appending to the heap does not change existing cells. -/
theorem heapGet_append_lt (h : Heap) (d : Dict) (i : Nat) (hi : i < h.length) :
    heapGet (h ++ [d]) i = heapGet h i := by
  simp [heapGet, List.getD, List.getElem?_append, hi]

/-- Reading the freshly appended heap cell. -/
theorem heapGet_append_last (h : Heap) (d : Dict) :
    heapGet (h ++ [d]) h.length = d := by
  simp [heapGet, List.getD, List.getElem?_append]

/-- Writing one heap cell does not change the others. -/
theorem heapGet_set_ne (h : Heap) (j : Nat) (d : Dict) (i : Nat) (hij : i ≠ j) :
    heapGet (heapSet h j d) i = heapGet h i := by
  simp [heapGet, heapSet, List.getD]
  rw [List.getElem?_set_ne]
  omega

/-- Reading back a written heap cell. -/
theorem heapGet_set_self (h : Heap) (j : Nat) (d : Dict) (hj : j < h.length) :
    heapGet (heapSet h j d) j = d := by
  simp [heapGet, heapSet, List.getD, List.getElem?_set_self, hj]

/-- Splitting never produces the empty list. -/
theorem pySplitSlash_ne_nil (l : List Char) : pySplitSlash l ≠ [] := by
  cases l with
  | nil => simp [pySplitSlash]
  | cons c rest =>
    simp only [pySplitSlash]
    split
    · simp
    · split <;> simp

/-- Splitting a separator-free string yields that single piece. -/
theorem pySplitSlash_no_slash (l : List Char) (h : '/' ∉ l) :
    pySplitSlash l = [l] := by
  induction l with
  | nil => rfl
  | cons c rest ih =>
    have hc : ¬ c = '/' := fun e => h (by simp [e])
    have hr : '/' ∉ rest := fun m => h (List.mem_cons_of_mem _ m)
    simp [pySplitSlash, hc, ih hr]

/-- Splitting peels off a leading separator-free piece. -/
theorem pySplitSlash_append (l r : List Char) (h : '/' ∉ l) :
    pySplitSlash (l ++ '/' :: r) = l :: pySplitSlash r := by
  induction l with
  | nil => simp [pySplitSlash]
  | cons c rest ih =>
    have hc : ¬ c = '/' := fun e => h (by simp [e])
    have hr : '/' ∉ rest := fun m => h (List.mem_cons_of_mem _ m)
    simp [pySplitSlash, hc, ih hr]

/-- Merging into a node with no children adopts the merged node as the only
child and changes nothing else. -/
theorem merge_childless (n u : String) (pr : Option String) (m : Dict)
    (ip : Bool) (pt : Option ParameterType) (ic : Option String)
    (node : Product) :
    Product.merge ⟨n, u, pr, m, ip, pt, ic, []⟩ node
      = ⟨n, u, pr, m, ip, pt, ic, [node]⟩ := by
  rw [Product.merge]
  simp

/-- Filtering away a key is unaffected by overwriting that key in place. -/
theorem filter_assignMap (d : Dict) (k v : String) :
    (d.map (fun p => if p.1 == k then (k, v) else p)).filter
        (fun p => p.1 != k)
      = d.filter (fun p => p.1 != k) := by
  induction d with
  | nil => rfl
  | cons p rest ih =>
    by_cases hp : p.1 = k
    · simp [hp]
      simpa using ih
    · simp [hp]
      simpa using ih

/-- Filtering away a key undoes an assignment to that key. -/
theorem filter_dictAssign (d : Dict) (k v : String) :
    (dictAssign d k v).filter (fun p => p.1 != k)
      = d.filter (fun p => p.1 != k) := by
  unfold dictAssign
  split
  · exact filter_assignMap d k v
  · simp

/-- Unfolding lemma: the nodes of a tree are the root and the nodes of its
children. -/
theorem allNodes_mk (n u : String) (pr : Option String) (m : Dict) (ip : Bool)
    (pt : Option ParameterType) (ic : Option String) (cs : List Product) :
    Product.allNodes ⟨n, u, pr, m, ip, pt, ic, cs⟩
      = ⟨n, u, pr, m, ip, pt, ic, cs⟩ :: allNodesList cs := by
  rw [Product.allNodes]

/-- Unfolding lemma: the empty forest has no nodes. -/
theorem allNodesList_nil : allNodesList [] = [] := by
  rw [allNodesList]

/-- Unfolding lemma: the nodes of a forest, one tree at a time. -/
theorem allNodesList_cons (c : Product) (cs : List Product) :
    allNodesList (c :: cs) = c.allNodes ++ allNodesList cs := by
  rw [allNodesList]

/-- The namespace-node invariant of `attachChain`: starting from a fresh
namespace node (empty metadata, not a parameter, provider and uid set to the
provider name), every node with children in the resulting tree is such a
namespace node. -/
theorem attachChain_inv (provName : String) (pt : ParameterType)
    (meta : Dict) (mids : List String) (leafName nm : String) :
    ∀ node ∈ (attachChain provName pt meta
        ⟨nm, provName, some provName, [], false, none, none, []⟩
        mids leafName).allNodes,
      node.children ≠ [] →
      node.metadata = [] ∧ node.is_parameter = false ∧
      node.parameter_type = none ∧ node.provider = some provName ∧
      node.uid = provName := by
  induction mids generalizing nm with
  | nil =>
    intro node hmem hch
    rw [attachChain, merge_childless, allNodes_mk, allNodesList_cons,
      allNodesList_nil, List.append_nil, allNodes_mk, allNodesList_nil,
      List.mem_cons, List.mem_cons] at hmem
    rcases hmem with h | h | h
    · subst h
      exact ⟨rfl, rfl, rfl, rfl, rfl⟩
    · subst h
      simp [Product.children] at hch
    · simp at h
  | cons e es ih =>
    intro node hmem hch
    rw [attachChain, merge_childless, allNodes_mk, allNodesList_cons,
      allNodesList_nil, List.append_nil, List.mem_cons] at hmem
    rcases hmem with h | h
    · subst h
      exact ⟨rfl, rfl, rfl, rfl, rfl⟩
    · exact ih e node h hch

/-- C1: claimed behaviour — registering two providers under one name leaves
exactly one registry entry (this part holds), but disposing the replaced
provider should then be a no-op and unregistering an absent name should never
fault.  Evaluating the embedded code: after provider object `1` and then
provider object `2` register under `"n"`, the registry holds exactly the entry
for object `2`; running the replaced object's `__del__` nevertheless removes
that entry (emptying the registry, i.e. it removes the still-registered
provider), and running `__del__` when the name is absent raises `KeyError`. -/
theorem c1_registry_last_writer_wins_del_eval :
    DataProvider.register (DataProvider.register [] "n" 1) "n" 2 = [("n", 2)]
    ∧ DataProvider.del
        (DataProvider.register (DataProvider.register [] "n" 1) "n" 2) "n"
        = .ok []
    ∧ DataProvider.del ([] : Registry) "n" = .error (.keyError "n") := by
  refine ⟨rfl, ?_, rfl⟩
  rfl

/-- C2 counterexample: a callback that raises makes `EasyScalar.get_data`
propagate the exception instead of returning absent, contradicting the claim
that fetch never propagates an exception from user code. -/
theorem c2_exception_propagates_cex :
    EasyScalar.get_data ["c"] (fun _ _ => .error (.userError "boom")) 0 1
      = .error (.userError "boom")
    ∧ EasyScalar.get_data ["c"] (fun _ _ => .error (.userError "boom")) 0 1
      ≠ .ok none := by
  exact ⟨rfl, fun hc => nomatch hc⟩

/-- C2 amended: for every shape adapter, when the wrapped user callback raises,
fetch does not degrade to absent: it propagates the exception unchanged to the
caller.  Absent is returned only for unrecognized return shapes. -/
theorem c2_amended_callback_exception_propagation (err : PyErr)
    (cols : List String) (start stop : Time) :
    EasyScalar.get_data cols (fun _ _ => .error err) start stop = .error err
    ∧ EasyVector.get_data cols (fun _ _ => .error err) start stop = .error err
    ∧ EasyMultiComponent.get_data cols (fun _ _ => .error err) start stop
      = .error err
    ∧ EasySpectrogram.get_data (fun _ _ => .error err) start stop
      = .error err :=
  ⟨rfl, rfl, rfl, rfl⟩

/-- C3: `ensure_dt64` is the identity on `datetime64[ns]` arrays, multiplies
`float64` arrays by 1e9 element-wise exactly (reinterpreting them as
nanosecond timestamps), and fails with the unsupported-axis-type `ValueError`
on every other input instead of returning a value. -/
theorem c3_ensure_dt64_cases (a b : NDArray) (x : PyVal)
    (ha : a.dtype = Dtype.datetime64ns) (hb : b.dtype = Dtype.float64)
    (hx : ∀ c : NDArray, x = .array c →
      c.dtype ≠ Dtype.datetime64ns ∧ c.dtype ≠ Dtype.float64) :
    ensure_dt64 (.array a) = .ok a
    ∧ ensure_dt64 (.array b)
      = .ok ⟨Dtype.datetime64ns, b.shape, b.vals.map (fun v => v * 1e9)⟩
    ∧ ensure_dt64 x
      = .error (.valueError ("cant handle x axis type " ++ pyTypeName x)) := by
  refine ⟨by simp [ensure_dt64, ha], by simp [ensure_dt64, hb], ?_⟩
  cases x with
  | array c =>
    obtain ⟨h1, h2⟩ := hx c rfl
    simp [ensure_dt64, h1, h2]
  | variableObj v => rfl
  | tuple elems => rfl
  | num q => rfl
  | str s => rfl
  | pyNone => rfl

/-- C3 witness: the three cases at concrete inputs — a nanosecond-timestamp
array, a `float64` seconds array, and a bare number. -/
theorem c3_ensure_dt64_cases_witness :
    NDArray.dtype ⟨Dtype.datetime64ns, [1], [5]⟩ = Dtype.datetime64ns
    ∧ NDArray.dtype ⟨Dtype.float64, [1], [2]⟩ = Dtype.float64
    ∧ (∀ c : NDArray, PyVal.num 3 = PyVal.array c →
        c.dtype ≠ Dtype.datetime64ns ∧ c.dtype ≠ Dtype.float64)
    ∧ ensure_dt64 (.array ⟨Dtype.datetime64ns, [1], [5]⟩)
      = .ok ⟨Dtype.datetime64ns, [1], [5]⟩
    ∧ ensure_dt64 (.array ⟨Dtype.float64, [1], [2]⟩)
      = .ok ⟨Dtype.datetime64ns, [1], [2000000000]⟩
    ∧ ensure_dt64 (.num 3)
      = .error (.valueError
          ("cant handle x axis type " ++ pyTypeName (.num 3))) := by
  have hx3 : ∀ c : NDArray, PyVal.num 3 = PyVal.array c →
      c.dtype ≠ Dtype.datetime64ns ∧ c.dtype ≠ Dtype.float64 := by
    intro c hc
    simp at hc
  have h := c3_ensure_dt64_cases ⟨Dtype.datetime64ns, [1], [5]⟩
    ⟨Dtype.float64, [1], [2]⟩ (.num 3) rfl rfl hx3
  refine ⟨rfl, rfl, hx3, h.1, ?_, h.2.2⟩
  have h2 := h.2.1
  norm_num at h2
  exact h2

/-- C5 counterexample: a callback returning a tuple of the wrong arity (a
3-tuple handed to the Scalar adapter) makes fetch raise a tuple-unpacking
`ValueError` instead of returning absent, contradicting the claim that every
unrecognized shape degrades to absent without raising. -/
theorem c5_wrong_arity_raises_cex :
    EasyScalar.get_data ["c"]
      (fun _ _ => .ok (.tuple [.array ⟨Dtype.float64, [1], [0]⟩,
        .array ⟨Dtype.float64, [1], [0]⟩, .array ⟨Dtype.float64, [1], [0]⟩]))
      0 1
      = .error (.valueError "tuple unpack")
    ∧ EasyScalar.get_data ["c"]
      (fun _ _ => .ok (.tuple [.array ⟨Dtype.float64, [1], [0]⟩,
        .array ⟨Dtype.float64, [1], [0]⟩, .array ⟨Dtype.float64, [1], [0]⟩]))
      0 1
      ≠ .ok none :=
  ⟨rfl, fun hc => nomatch hc⟩

/-- C5 amended: a callback result that is neither a `SpeasyVariable` nor a
tuple at all (for example a single scalar number) makes every adapter's fetch
return absent without raising; a tuple of the wrong arity instead raises a
tuple-unpacking error (shown for the Scalar adapter, whose expected arity
is 2). -/
theorem c5_amended_unrecognized_shape (v : PyVal) (cols : List String)
    (start stop : Time) (h1 : v.isVariableObj = false)
    (h2 : v.isTuple = false) :
    (EasyScalar.get_data cols (fun _ _ => .ok v) start stop = .ok none
     ∧ EasyVector.get_data cols (fun _ _ => .ok v) start stop = .ok none
     ∧ EasyMultiComponent.get_data cols (fun _ _ => .ok v) start stop = .ok none
     ∧ EasySpectrogram.get_data (fun _ _ => .ok v) start stop = .ok none)
    ∧ ∀ elems : List PyVal, elems.length ≠ 2 →
        EasyScalar.get_data cols (fun _ _ => .ok (.tuple elems)) start stop
          = .error (.valueError "tuple unpack") := by
  constructor
  · cases v with
    | variableObj w => simp [PyVal.isVariableObj] at h1
    | tuple l => simp [PyVal.isTuple] at h2
    | array a => exact ⟨rfl, rfl, rfl, rfl⟩
    | num q => exact ⟨rfl, rfl, rfl, rfl⟩
    | str s => exact ⟨rfl, rfl, rfl, rfl⟩
    | pyNone => exact ⟨rfl, rfl, rfl, rfl⟩
  · intro elems hlen
    cases elems with
    | nil => rfl
    | cons a t =>
      cases t with
      | nil => rfl
      | cons b t2 =>
        cases t2 with
        | nil => exact absurd rfl hlen
        | cons c t3 => rfl

/-- C5 witness: the amended claim at the concrete unrecognized shape `5` (a
bare number). -/
theorem c5_amended_unrecognized_shape_witness :
    PyVal.isVariableObj (.num 5) = false
    ∧ PyVal.isTuple (.num 5) = false
    ∧ ((EasyScalar.get_data ["c"] (fun _ _ => .ok (.num 5)) 0 1 = .ok none
        ∧ EasyVector.get_data ["c"] (fun _ _ => .ok (.num 5)) 0 1 = .ok none
        ∧ EasyMultiComponent.get_data ["c"] (fun _ _ => .ok (.num 5)) 0 1
          = .ok none
        ∧ EasySpectrogram.get_data (fun _ _ => .ok (.num 5)) 0 1 = .ok none)
      ∧ ∀ elems : List PyVal, elems.length ≠ 2 →
          EasyScalar.get_data ["c"] (fun _ _ => .ok (.tuple elems)) 0 1
            = .error (.valueError "tuple unpack")) :=
  ⟨rfl, rfl, c5_amended_unrecognized_shape (.num 5) ["c"] 0 1 rfl rfl⟩

/-- C7: a Spectrogram adapter whose callback returns `(x, y, z)` with
`len(x) = T`, `len(y) = F` and `z` shaped `T x F` (and `x` of a dtype the
normalizer accepts) fetches a `SpeasyVariable` whose first axis is the
normalized time axis of length `T`, whose secondary axis is `y` itself of
length `F` (passed through with no time normalization), whose data block is
`z` shaped `T x F`, and which carries no column names. -/
theorem c7_spectrogram_shape (x y z : NDArray) (T F : Nat) (start stop : Time)
    (hx : x.dtype = Dtype.float64 ∨ x.dtype = Dtype.datetime64ns)
    (hxT : x.shape = [T]) (hyF : y.shape = [F]) (hzTF : z.shape = [T, F]) :
    ∃ xa : NDArray, ensure_dt64 (.array x) = .ok xa ∧ xa.shape = [T]
      ∧ y.shape = [F] ∧ z.shape = [T, F]
      ∧ EasySpectrogram.get_data
          (fun _ _ => .ok (.tuple [.array x, .array y, .array z])) start stop
        = .ok (some ⟨[.timeAxis xa, .axis y], z, []⟩) := by
  obtain ⟨xd, xs, xv⟩ := x
  rcases hx with hf | hd
  · have he : xd = Dtype.float64 := hf
    subst he
    exact ⟨⟨Dtype.datetime64ns, xs, xv.map (fun v => v * 1e9)⟩, rfl, hxT,
      hyF, hzTF, rfl⟩
  · have he : xd = Dtype.datetime64ns := hd
    subst he
    exact ⟨⟨Dtype.datetime64ns, xs, xv⟩, rfl, hxT, hyF, hzTF, rfl⟩

/-- C7 witness: the Spectrogram fetch at a concrete `(x, y, z)` with
`T = 2`, `F = 3`. -/
theorem c7_spectrogram_shape_witness :
    (NDArray.dtype ⟨Dtype.float64, [2], [0, 1]⟩ = Dtype.float64
      ∨ NDArray.dtype ⟨Dtype.float64, [2], [0, 1]⟩ = Dtype.datetime64ns)
    ∧ NDArray.shape ⟨Dtype.float64, [2], [0, 1]⟩ = [2]
    ∧ NDArray.shape ⟨Dtype.float64, [3], [1, 2, 3]⟩ = [3]
    ∧ NDArray.shape ⟨Dtype.float64, [2, 3], [1, 2, 3, 4, 5, 6]⟩ = [2, 3]
    ∧ ∃ xa : NDArray,
        ensure_dt64 (.array ⟨Dtype.float64, [2], [0, 1]⟩) = .ok xa
        ∧ xa.shape = [2]
        ∧ NDArray.shape ⟨Dtype.float64, [3], [1, 2, 3]⟩ = [3]
        ∧ NDArray.shape ⟨Dtype.float64, [2, 3], [1, 2, 3, 4, 5, 6]⟩ = [2, 3]
        ∧ EasySpectrogram.get_data
            (fun _ _ => .ok (.tuple [.array ⟨Dtype.float64, [2], [0, 1]⟩,
              .array ⟨Dtype.float64, [3], [1, 2, 3]⟩,
              .array ⟨Dtype.float64, [2, 3], [1, 2, 3, 4, 5, 6]⟩])) 0 1
          = .ok (some ⟨[.timeAxis xa,
              .axis ⟨Dtype.float64, [3], [1, 2, 3]⟩],
              ⟨Dtype.float64, [2, 3], [1, 2, 3, 4, 5, 6]⟩, []⟩) :=
  ⟨Or.inl rfl, rfl, rfl, rfl,
    c7_spectrogram_shape ⟨Dtype.float64, [2], [0, 1]⟩
      ⟨Dtype.float64, [3], [1, 2, 3]⟩
      ⟨Dtype.float64, [2, 3], [1, 2, 3, 4, 5, 6]⟩ 2 3 0 1 (Or.inl rfl)
      rfl rfl rfl⟩

/-- C8: the Scalar adapter at the concrete callback result
`(x = [0, 1, 2] seconds, y = [10, 20, 30])` fetches a variable whose time axis
is `[0, 1e9, 2e9]` nanoseconds with exactly the one configured column and data
`[10, 20, 30]`; and a callback that already returns a `SpeasyVariable` is
passed through unchanged. -/
theorem c8_scalar_concrete_and_passthrough :
    (∀ comp : String,
      EasyScalar.get_data [comp]
        (fun _ _ => .ok (.tuple [.array ⟨Dtype.float64, [3], [0, 1, 2]⟩,
          .array ⟨Dtype.float64, [3], [10, 20, 30]⟩])) 0 2
        = .ok (some ⟨[.timeAxis ⟨Dtype.datetime64ns, [3],
            [0, 1000000000, 2000000000]⟩],
          ⟨Dtype.float64, [3], [10, 20, 30]⟩, [comp]⟩))
    ∧ ∀ (v : SpeasyVariable) (cols : List String) (start stop : Time),
        EasyScalar.get_data cols (fun _ _ => .ok (.variableObj v)) start stop
          = .ok (some v) := by
  constructor
  · intro comp
    have hmap : List.map (fun v => v * 1e9) ([0, 1, 2] : List Rat)
        = [0, 1000000000, 2000000000] := by norm_num
    have hres : (Except.ok (some ⟨[.timeAxis ⟨Dtype.datetime64ns, [3],
          List.map (fun v => v * 1e9) [0, 1, 2]⟩],
        ⟨Dtype.float64, [3], [10, 20, 30]⟩, [comp]⟩)
          : Except PyErr (Option SpeasyVariable))
        = Except.ok (some ⟨[.timeAxis ⟨Dtype.datetime64ns, [3],
          [0, 1000000000, 2000000000]⟩],
        ⟨Dtype.float64, [3], [10, 20, 30]⟩, [comp]⟩) := by
      rw [hmap]
    exact hres
  · intro v cols start stop
    rfl

/-- Reduction of `build_product_hierarchy` once the segment list is known. -/
theorem build_from_segments (path : String) (provName : String)
    (pt : ParameterType) (meta : Dict) (e0 : String) (rest : List String)
    (h : (pySplitSlash (stripLeadingSlash path.data)).map String.mk
      = e0 :: rest) :
    build_product_hierarchy path provName pt meta
      = attachChain provName pt meta
          ⟨e0, provName, some provName, [], false, none, none, []⟩
          rest.dropLast ((e0 :: rest).getLast (List.cons_ne_nil e0 rest)) := by
  simp only [build_product_hierarchy]
  rw [h]

/-- C4: on a three-segment path `/A/B/C`, the built hierarchy is a root named
`A` with exactly one child `B`, which has exactly one child `C`; the leaf `C`
is marked as a parameter, carries the supplied parameter type and metadata and
has its own text as uid, while the root and the intermediate node have the
provider name as uid. -/
theorem c4_build_hierarchy_three_segments (A B C provName : String)
    (pt : ParameterType) (meta : Dict)
    (hA : A ≠ "") (hB : B ≠ "") (hC : C ≠ "")
    (sA : '/' ∉ A.data) (sB : '/' ∉ B.data) (sC : '/' ∉ C.data) :
    build_product_hierarchy ("/" ++ A ++ "/" ++ B ++ "/" ++ C) provName pt meta
      = ⟨A, provName, some provName, [], false, none, none,
          [⟨B, provName, some provName, [], false, none, none,
            [⟨C, C, some provName, meta, true, some pt, none, []⟩]⟩]⟩ := by
  have hslash : ("/" : String).data = ['/'] := rfl
  have hdata : ("/" ++ A ++ "/" ++ B ++ "/" ++ C).data
      = '/' :: (A.data ++ '/' :: (B.data ++ '/' :: C.data)) := by
    simp [String.data_append, hslash]
  have hseg : (pySplitSlash (stripLeadingSlash
      ("/" ++ A ++ "/" ++ B ++ "/" ++ C).data)).map String.mk = [A, B, C] := by
    rw [hdata]
    show (pySplitSlash (A.data ++ '/' :: (B.data ++ '/' :: C.data))).map
      String.mk = [A, B, C]
    rw [pySplitSlash_append _ _ sA, pySplitSlash_append _ _ sB,
      pySplitSlash_no_slash _ sC]
    simp [mk_data_eq]
  rw [build_from_segments _ provName pt meta A [B, C] hseg]
  have hdrop : ([B, C] : List String).dropLast = [B] := rfl
  have hlast : (A :: [B, C] : List String).getLast
      (List.cons_ne_nil A [B, C]) = C := rfl
  rw [hdrop, hlast]
  simp only [attachChain]
  rw [merge_childless, merge_childless]

/-- C4 witness: the hierarchy built from the concrete path `/A/B/C`. -/
theorem c4_build_hierarchy_three_segments_witness :
    ("A" : String) ≠ "" ∧ ("B" : String) ≠ "" ∧ ("C" : String) ≠ ""
    ∧ '/' ∉ ("A" : String).data ∧ '/' ∉ ("B" : String).data
    ∧ '/' ∉ ("C" : String).data
    ∧ build_product_hierarchy ("/" ++ "A" ++ "/" ++ "B" ++ "/" ++ "C") "p0"
        ParameterType.VECTOR [("k", "v")]
      = ⟨"A", "p0", some "p0", [], false, none, none,
          [⟨"B", "p0", some "p0", [], false, none, none,
            [⟨"C", "C", some "p0", [("k", "v")], true,
              some ParameterType.VECTOR, none, []⟩]⟩]⟩ :=
  ⟨by decide, by decide, by decide, by decide, by decide, by decide,
    c4_build_hierarchy_three_segments "A" "B" "C" "p0" ParameterType.VECTOR
      [("k", "v")] (by decide) (by decide) (by decide) (by decide) (by decide)
      (by decide)⟩

/-- C6 counterexample: in the tree built from `/A/B/C`, the root is not a
leaf, yet it carries a provider (`provider.name`), contradicting the claim
that root and intermediate nodes have no provider. -/
theorem c6_nodes_carry_provider_cex :
    Product.provider
        (build_product_hierarchy "/A/B/C" "prov" ParameterType.SCALAR [])
      = some "prov"
    ∧ Product.provider
        (build_product_hierarchy "/A/B/C" "prov" ParameterType.SCALAR [])
      ≠ none
    ∧ Product.children
        (build_product_hierarchy "/A/B/C" "prov" ParameterType.SCALAR [])
      ≠ [] := by
  have hb : build_product_hierarchy "/A/B/C" "prov" ParameterType.SCALAR []
      = ⟨"A", "prov", some "prov", [], false, none, none,
          [⟨"B", "prov", some "prov", [], false, none, none,
            [⟨"C", "C", some "prov", [], true, some ParameterType.SCALAR,
              none, []⟩]⟩]⟩ := by
    show attachChain "prov" ParameterType.SCALAR []
      ⟨"A", "prov", some "prov", [], false, none, none, []⟩ ["B"] "C" = _
    simp only [attachChain]
    rw [merge_childless, merge_childless]
  rw [hb]
  refine ⟨rfl, ?_, ?_⟩
  · intro hc
    simp [Product.provider] at hc
  · intro hc
    simp [Product.children] at hc

/-- C6 amended: in every tree returned by `build_product_hierarchy`, every
node that has children (the root and the intermediate nodes) is a namespace
container with empty metadata, not marked as a parameter and with no parameter
type — but it does carry the provider name as its `provider` (and as its uid),
rather than carrying no provider. -/
theorem c6_amended_namespace_invariant (path provName : String)
    (pt : ParameterType) (meta : Dict) :
    ∀ node ∈ (build_product_hierarchy path provName pt meta).allNodes,
      node.children ≠ [] →
      node.metadata = [] ∧ node.is_parameter = false ∧
      node.parameter_type = none ∧ node.provider = some provName ∧
      node.uid = provName := by
  intro node
  rcases hsp : (pySplitSlash (stripLeadingSlash path.data)).map String.mk
    with _ | ⟨e0, rest⟩
  · exfalso
    exact pySplitSlash_ne_nil (stripLeadingSlash path.data)
      (by simpa using hsp)
  · rw [build_from_segments path provName pt meta e0 rest hsp]
    exact attachChain_inv provName pt meta rest.dropLast
      ((e0 :: rest).getLast (List.cons_ne_nil e0 rest)) e0 node

/-- C6 witness: the amended invariant applied to the root of the tree built
from the concrete path `/A/B/C`. -/
theorem c6_amended_namespace_invariant_witness :
    (⟨"A", "prov", some "prov", [], false, none, none,
        [⟨"B", "prov", some "prov", [], false, none, none,
          [⟨"C", "C", some "prov", [("k", "v")], true,
            some ParameterType.SCALAR, none, []⟩]⟩]⟩ : Product)
      ∈ (build_product_hierarchy "/A/B/C" "prov" ParameterType.SCALAR
          [("k", "v")]).allNodes
    ∧ Product.children (⟨"A", "prov", some "prov", [], false, none, none,
        [⟨"B", "prov", some "prov", [], false, none, none,
          [⟨"C", "C", some "prov", [("k", "v")], true,
            some ParameterType.SCALAR, none, []⟩]⟩]⟩ : Product) ≠ []
    ∧ Product.metadata (⟨"A", "prov", some "prov", [], false, none, none,
        [⟨"B", "prov", some "prov", [], false, none, none,
          [⟨"C", "C", some "prov", [("k", "v")], true,
            some ParameterType.SCALAR, none, []⟩]⟩]⟩ : Product) = []
    ∧ Product.is_parameter (⟨"A", "prov", some "prov", [], false, none, none,
        [⟨"B", "prov", some "prov", [], false, none, none,
          [⟨"C", "C", some "prov", [("k", "v")], true,
            some ParameterType.SCALAR, none, []⟩]⟩]⟩ : Product) = false
    ∧ Product.parameter_type
        (⟨"A", "prov", some "prov", [], false, none, none,
        [⟨"B", "prov", some "prov", [], false, none, none,
          [⟨"C", "C", some "prov", [("k", "v")], true,
            some ParameterType.SCALAR, none, []⟩]⟩]⟩ : Product) = none
    ∧ Product.provider (⟨"A", "prov", some "prov", [], false, none, none,
        [⟨"B", "prov", some "prov", [], false, none, none,
          [⟨"C", "C", some "prov", [("k", "v")], true,
            some ParameterType.SCALAR, none, []⟩]⟩]⟩ : Product)
      = some "prov"
    ∧ Product.uid (⟨"A", "prov", some "prov", [], false, none, none,
        [⟨"B", "prov", some "prov", [], false, none, none,
          [⟨"C", "C", some "prov", [("k", "v")], true,
            some ParameterType.SCALAR, none, []⟩]⟩]⟩ : Product) = "prov" := by
  have hb : build_product_hierarchy "/A/B/C" "prov" ParameterType.SCALAR
      [("k", "v")]
      = ⟨"A", "prov", some "prov", [], false, none, none,
          [⟨"B", "prov", some "prov", [], false, none, none,
            [⟨"C", "C", some "prov", [("k", "v")], true,
              some ParameterType.SCALAR, none, []⟩]⟩]⟩ := by
    show attachChain "prov" ParameterType.SCALAR [("k", "v")]
      ⟨"A", "prov", some "prov", [], false, none, none, []⟩ ["B"] "C" = _
    simp only [attachChain]
    rw [merge_childless, merge_childless]
  have hmem : (⟨"A", "prov", some "prov", [], false, none, none,
      [⟨"B", "prov", some "prov", [], false, none, none,
        [⟨"C", "C", some "prov", [("k", "v")], true,
          some ParameterType.SCALAR, none, []⟩]⟩]⟩ : Product)
      ∈ (build_product_hierarchy "/A/B/C" "prov" ParameterType.SCALAR
          [("k", "v")]).allNodes := by
    rw [hb, allNodes_mk]
    exact List.mem_cons_self _ _
  have hch : Product.children (⟨"A", "prov", some "prov", [], false, none,
      none, [⟨"B", "prov", some "prov", [], false, none, none,
        [⟨"C", "C", some "prov", [("k", "v")], true,
          some ParameterType.SCALAR, none, []⟩]⟩]⟩ : Product) ≠ [] := by
    intro hc
    simp [Product.children] at hc
  have hres := c6_amended_namespace_invariant "/A/B/C" "prov"
    ParameterType.SCALAR [("k", "v")] _ hmem hch
  exact ⟨hmem, hch, hres.1, hres.2.1, hres.2.2.1,
    hres.2.2.2.1, hres.2.2.2.2⟩

/-- The metadata of the product registered by `EasyProvider.__init__`, when the
metadata reference is the freshly appended heap cell: the copied dict with the
description entry assigned. -/
theorem easyProviderInit_metadata (h : Heap) (r : Registry)
    (path cbName : String) (pt : ParameterType) (d : Dict) (provName : String)
    (objId : Nat) (dord : DataOrder) :
    (EasyProvider.init (h ++ [d]) r path cbName pt h.length provName objId
      dord).product.metadata
      = dictAssign d "description"
          ("Virtual " ++ pt.name ++ " product built from Python function: "
            ++ cbName) := by
  simp only [EasyProvider.init, Product.metadata]
  rw [heapGet_set_self _ _ _ (by simp), heapGet_append_last]

/-- C9: the MultiComponent adapter's fetch is extensionally identical to the
Vector adapter's fetch (it inherits it without overriding); the two
constructors record different `parameter_type` tags on the registered product
(`MULTICOMPONENT` versus `VECTOR`), and apart from that tag and the
description string derived from it, they produce the same registered product
and the same registry, product path, columns and data order. -/
theorem c9_multicomponent_vector_refinement :
    (∀ (cols : List String) (cb : Callback) (start stop : Time),
      EasyMultiComponent.get_data cols cb start stop
        = EasyVector.get_data cols cb start stop)
    ∧ ∀ (h : Heap) (r : Registry) (path cbName : String)
        (comps : List String) (metaRef : Nat) (provName : String)
        (objId : Nat) (dord : DataOrder),
        (EasyMultiComponent.init h r path cbName comps metaRef provName objId
          dord).product.parameter_type = some ParameterType.MULTICOMPONENT
        ∧ (EasyVector.init h r path cbName comps metaRef provName objId
          dord).product.parameter_type = some ParameterType.VECTOR
        ∧ Product.eraseTagInfo (EasyMultiComponent.init h r path cbName comps
            metaRef provName objId dord).product
          = Product.eraseTagInfo (EasyVector.init h r path cbName comps
            metaRef provName objId dord).product
        ∧ (EasyMultiComponent.init h r path cbName comps metaRef provName
            objId dord).registry
          = (EasyVector.init h r path cbName comps metaRef provName objId
            dord).registry
        ∧ (EasyMultiComponent.init h r path cbName comps metaRef provName
            objId dord).productPath
          = (EasyVector.init h r path cbName comps metaRef provName objId
            dord).productPath
        ∧ (EasyMultiComponent.init h r path cbName comps metaRef provName
            objId dord).columns
          = (EasyVector.init h r path cbName comps metaRef provName objId
            dord).columns
        ∧ (EasyMultiComponent.init h r path cbName comps metaRef provName
            objId dord).dataOrder
          = (EasyVector.init h r path cbName comps metaRef provName objId
            dord).dataOrder := by
  refine ⟨fun cols cb start stop => rfl, ?_⟩
  intro h r path cbName comps metaRef provName objId dord
  refine ⟨rfl, rfl, ?_, rfl, rfl, rfl, rfl⟩
  simp only [EasyMultiComponent.init, EasyVector.init, EasyProvider.init,
    Product.eraseTagInfo, Product.name, Product.uid, Product.provider,
    Product.metadata, Product.is_parameter, Product.icon, Product.children]
  rw [heapGet_set_self _ _ _ (by simp), heapGet_set_self _ _ _ (by simp),
    heapGet_append_last, filter_dictAssign, filter_dictAssign]

/-- C10: constructing any of the four shape adapters leaves the
caller-supplied metadata dictionary unchanged: the description and components
entries are written only into the freshly allocated internal copy. -/
theorem c10_caller_metadata_unchanged (h : Heap) (r : Registry)
    (path cbName comp : String) (comps : List String) (metaRef : Nat)
    (provName : String) (objId : Nat) (dord : DataOrder)
    (hm : metaRef < h.length) :
    heapGet (EasyScalar.init h r path cbName comp metaRef provName objId
        dord).heap metaRef = heapGet h metaRef
    ∧ heapGet (EasyVector.init h r path cbName comps metaRef provName objId
        dord).heap metaRef = heapGet h metaRef
    ∧ heapGet (EasyMultiComponent.init h r path cbName comps metaRef provName
        objId dord).heap metaRef = heapGet h metaRef
    ∧ heapGet (EasySpectrogram.init h r path cbName metaRef provName objId
        dord).heap metaRef = heapGet h metaRef := by
  have key : ∀ (d : Dict) (pt : ParameterType),
      heapGet (EasyProvider.init (h ++ [d]) r path cbName pt h.length provName
        objId dord).heap metaRef = heapGet h metaRef := by
    intro d pt
    simp only [EasyProvider.init]
    rw [heapGet_set_ne _ _ _ _ (by omega), heapGet_append_lt _ _ _ hm]
  exact ⟨key _ _, key _ _, key _ _, key _ _⟩

/-- C10 witness: the four constructors on a one-cell heap leave that cell
unchanged. -/
theorem c10_caller_metadata_unchanged_witness :
    0 < List.length [[("k", "v")]]
    ∧ (heapGet (EasyScalar.init [[("k", "v")]] [] "/a/b" "f" "comp" 0 "f_0" 1
        DataOrder.Y_FIRST).heap 0 = heapGet [[("k", "v")]] 0
      ∧ heapGet (EasyVector.init [[("k", "v")]] [] "/a/b" "f" ["c1", "c2"] 0
        "f_0" 1 DataOrder.Y_FIRST).heap 0 = heapGet [[("k", "v")]] 0
      ∧ heapGet (EasyMultiComponent.init [[("k", "v")]] [] "/a/b" "f"
        ["c1", "c2"] 0 "f_0" 1 DataOrder.Y_FIRST).heap 0
        = heapGet [[("k", "v")]] 0
      ∧ heapGet (EasySpectrogram.init [[("k", "v")]] [] "/a/b" "f" 0 "f_0" 1
        DataOrder.Y_FIRST).heap 0 = heapGet [[("k", "v")]] 0) :=
  ⟨by decide, c10_caller_metadata_unchanged [[("k", "v")]] [] "/a/b" "f"
    "comp" ["c1", "c2"] 0 "f_0" 1 DataOrder.Y_FIRST (by decide)⟩
